import Mathlib

/-
  Verification of the MVP_AI_Browser_Operator step-execution pipeline.

  This file gives a shallow embedding, in Lean 4, of the parts of the
  repository that the claims C1..C10 speak about:

  * `app/infrastructure/html_summarizer.py` (class HTMLSummarizer):
    visibility inference (`is_visible`), role mapping (`tag_to_role`),
    accessible-name extraction (`get_name`), node conversion
    (`element_to_json`) and the top-level `summarize_html`, together with
    the configuration tables from `app/utils/config.py`
    (HTML_SUMMARIZER_CONFIG).
  * `app/infrastructure/playwright_manager.py` (PlaywrightManager):
    the `execute_step` command sandbox, its security gate and its
    screenshot behaviour.
  * `app/services/operator_runner.py` (OperatorRunnerService):
    the instruction-tier loop of `_execute_single_step` and the
    case-level control flow of `run_operator_case` (step generation,
    navigation retry, step loop, exception handlers, cleanup).

  Modelling conventions:
  - Python strings are Lean `String`s; the Python string operations used
    by the code (`strip`, `lower`, `replace`, substring containment) are
    re-implemented over character lists so that all definitions evaluate
    inside the kernel.  `strip`/`lower` are ASCII-faithful, which covers
    every string the code compares against.
  - BeautifulSoup tag trees are the inductive `HNode`; the multi-valued
    `class` attribute is kept as a token list (as bs4 does), all other
    attributes as an ordered association list.  Comments and
    NavigableStrings are both modelled by `HNode.text` (the code treats
    both as non-tags).
  - An element's ancestor chain (`element.parent`, `.parent.parent`, ...)
    is passed explicitly as a list, nearest parent first; the
    BeautifulSoup document object at the top of a real chain is the node
    named "[document]".
  - Asynchronous I/O against the live browser, the AI translators and
    the wall clock are modelled as explicit oracles (function-valued
    environment fields); timestamps and durations, which no claim
    quantifies, are omitted.
  - Exceptions are `Except`/sum values; each Python `except` clause
    becomes a `match` on the corresponding error constructor.
-/

namespace MVPOperator

/-! ## Python string primitives -/

/-- Leading and trailing whitespace removal on a character list
(Python `str.strip()`). -/
def stripChars (l : List Char) : List Char :=
  ((l.dropWhile Char.isWhitespace).reverse.dropWhile Char.isWhitespace).reverse

/-- Python `s.strip()`. -/
def pyStrip (s : String) : String := String.mk (stripChars s.toList)

/-- ASCII lower-casing of one character (Python `str.lower` on the
ASCII range, which covers every comparison the code performs). -/
def lowerChar (c : Char) : Char :=
  if 'A' ≤ c ∧ c ≤ 'Z' then Char.ofNat (c.toNat + 32) else c

/-- Python `s.lower()`. -/
def pyLower (s : String) : String := String.mk (s.toList.map lowerChar)

/-- Is `p` a prefix of `l`? -/
def pfxChars : List Char → List Char → Bool
  | [], _ => true
  | _ :: _, [] => false
  | a :: as, b :: bs => a = b && pfxChars as bs

/-- Is `p` a contiguous substring of `l`? -/
def infixChars (p : List Char) : List Char → Bool
  | [] => p.isEmpty
  | c :: rest => pfxChars p (c :: rest) || infixChars p rest

/-- Python `pat in s` (substring containment). -/
def strContains (s pat : String) : Bool := infixChars pat.toList s.toList

/-- Left-to-right, non-overlapping replacement of `pat` by `rep`
(Python `str.replace`); the fuel argument is the input length, which
bounds the number of recursion steps. -/
def replaceChars (pat rep : List Char) : Nat → List Char → List Char
  | 0, l => l
  | _ + 1, [] => []
  | fuel + 1, c :: rest =>
    if pat ≠ [] && pfxChars pat (c :: rest) then
      rep ++ replaceChars pat rep fuel ((c :: rest).drop pat.length)
    else
      c :: replaceChars pat rep fuel rest

/-- Python `s.replace(pat, rep)`. -/
def pyReplace (s pat rep : String) : String :=
  String.mk (replaceChars pat.toList rep.toList s.toList.length s.toList)

/-- Parse a decimal digit string into a Nat (helper for Python `int()`). -/
def digitsToNat (l : List Char) : Option Nat :=
  if l ≠ [] && l.all Char.isDigit then
    some (l.foldl (fun a c => a * 10 + (c.toNat - ('0').toNat)) 0)
  else none

/-- Python `int(s)` on the forms the code can meet (optional sign and
surrounding whitespace); `none` models `ValueError`. -/
def pyIntParse (s : String) : Option Int :=
  match stripChars s.toList with
  | [] => none
  | '+' :: ds => (digitsToNat ds).map Int.ofNat
  | '-' :: ds => (digitsToNat ds).map (fun n => -(Int.ofNat n))
  | ds => (digitsToNat ds).map Int.ofNat

/-- Python `' '.join(tokens)`. -/
def spaceJoin : List String → String
  | [] => ""
  | [t] => t
  | t :: rest => t ++ " " ++ spaceJoin rest

/-! ## The BeautifulSoup tag-tree model

`app/infrastructure/html_summarizer.py` works on a parsed BeautifulSoup
tree.  `HNode.tag` carries the tag name, the non-`class` attributes in
document order, the `class` token list (bs4 represents `class` as a list
of tokens) and the child nodes; `HNode.text` is a NavigableString (or a
Comment, which the code also treats as a non-tag). -/

inductive HNode where
  | tag (name : String) (attrs : List (String × String))
        (classes : List String) (children : List HNode)
  | text (s : String)

/-- Tag name (`element.name`); a NavigableString has no name. -/
def nodeName : HNode → String
  | .tag n _ _ _ => n
  | .text _ => ""

/-- Attribute association list of a node. -/
def nodeAttrs : HNode → List (String × String)
  | .tag _ a _ _ => a
  | .text _ => []

/-- `class` token list of a node (`element.get('class', [])`). -/
def nodeClasses : HNode → List String
  | .tag _ _ c _ => c
  | .text _ => []

/-- Child list of a node. -/
def nodeChildren : HNode → List HNode
  | .tag _ _ _ k => k
  | .text _ => []

/-- First value bound to `key` in an attribute list
(`element.attrs.get(key)` for single-valued attributes). -/
def attrListGet (attrs : List (String × String)) (key : String) : Option String :=
  match attrs with
  | [] => none
  | (k, v) :: rest => if k == key then some v else attrListGet rest key

/-- Python `element.get(key, dflt)`. -/
def attrListD (attrs : List (String × String)) (key dflt : String) : String :=
  (attrListGet attrs key).getD dflt

/-- Python truthiness of `element.get(key)`: the attribute is present
with a non-empty value. -/
def truthyAttrList (attrs : List (String × String)) (key : String) : Bool :=
  match attrListGet attrs key with
  | some v => v != ""
  | none => false

/-- `element.get(key, dflt)` on a node. -/
def attrOfD (e : HNode) (key dflt : String) : String := attrListD (nodeAttrs e) key dflt

/-! ## HTMLSummarizer.is_visible (html_summarizer.py lines 31-94) -/

/-- The inline-style test of lines 42 and 53: the style string contains
one of the three hiding declarations.  The code matches the exact
substrings `"display: none"`, `"visibility: hidden"` and `"opacity: 0"`,
each with a single space after the colon. -/
def styleHides (style : String) : Bool :=
  strContains style "display: none" || strContains style "visibility: hidden" ||
    strContains style "opacity: 0"

/-- `element.get('aria-hidden') == 'true'` on an attribute list. -/
def ariaHiddenTrue (attrs : List (String × String)) : Bool :=
  attrListGet attrs "aria-hidden" == some "true"

/-- Lines 50-63: the `while` walk over `element.parent`, stopping at the
document node; a parent hidden by style, by a truthy `hidden` attribute,
by `aria-hidden="true"`, or carrying the class token `mobile-nav`,
renders the element invisible (the function returns `true` when the
walk hides the element). -/
def parentChainHides : List HNode → Bool
  | [] => false
  | p :: rest =>
    if nodeName p == "[document]" then false
    else if styleHides (attrOfD p "style" "") then true
    else if truthyAttrList (nodeAttrs p) "hidden" || ariaHiddenTrue (nodeAttrs p) then true
    else if (nodeClasses p).contains "mobile-nav" then true
    else parentChainHides rest

/-- Lines 66-67: interactive tag names and interactive ARIA roles. -/
def isInteractiveTag (nm : String) (attrs : List (String × String)) : Bool :=
  (nm == "a" || nm == "button" || nm == "input" || nm == "select" || nm == "textarea") ||
  (match attrListGet attrs "role" with
   | some r => r == "button" || r == "link" || r == "textbox" || r == "combobox" ||
       r == "menuitem" || r == "tab"
   | none => false)

/-- Line 77: tags that are always visible once their ancestors allow it. -/
def isSpecialTag (nm : String) : Bool :=
  nm == "img" || nm == "svg" || nm == "canvas" || nm == "iframe"

/-- `element.find_all(recursive=False)` truthiness: the node has at
least one direct tag child. -/
def hasTagChild : List HNode → Bool
  | [] => false
  | .tag _ _ _ _ :: _ => true
  | .text _ :: rest => hasTagChild rest

/- `element.get_text(strip=True)` (and the helper over child lists):
every descendant string stripped and concatenated. -/
mutual
def getTextStrip : HNode → String
  | .text s => pyStrip s
  | .tag _ _ _ cs => getTextStripList cs
def getTextStripList : List HNode → String
  | [] => ""
  | c :: cs => getTextStrip c ++ getTextStripList cs
end

/- `HTMLSummarizer.is_visible` (lines 31-94).  `anc` is the chain of
parents, nearest first, as the live tree provides it through
`element.parent`.  The recursive bubble-up call of line 90 sees the
element itself prepended to that chain. -/
mutual
def is_visible (anc : List HNode) : HNode → Bool
  | .text _ => false
  | .tag nm attrs cls cs =>
    if styleHides (attrListD attrs "style" "") then false
    else if truthyAttrList attrs "hidden" || ariaHiddenTrue attrs then false
    else if parentChainHides anc then false
    else if isInteractiveTag nm attrs then
      getTextStripList cs != "" || !(attrs.isEmpty && cls.isEmpty) || hasTagChild cs
    else if isSpecialTag nm then true
    else if getTextStripList cs == "" && !hasTagChild cs then false
    else if anyChildVisible (HNode.tag nm attrs cls cs :: anc) cs then true
    else getTextStripList cs != ""
def anyChildVisible (anc : List HNode) : List HNode → Bool
  | [] => false
  | c :: cs => is_visible anc c || anyChildVisible anc cs
end

/-! ## HTMLSummarizer.tag_to_role (lines 96-112) and the config tables -/

/-- `HTML_SUMMARIZER_CONFIG['role_map']` (`app/utils/config.py`). -/
def role_map_get (t : String) : Option String :=
  List.lookup t
    [("a", "link"), ("button", "button"), ("input", "textbox"), ("select", "combobox"),
     ("textarea", "textbox"), ("h1", "heading"), ("h2", "heading"), ("h3", "heading"),
     ("h4", "heading"), ("h5", "heading"), ("h6", "heading"), ("div", "generic"),
     ("span", "generic"), ("p", "text"), ("nav", "navigation"), ("form", "form"),
     ("header", "banner"), ("footer", "contentinfo"), ("main", "main"),
     ("article", "article"), ("section", "region"), ("aside", "complementary"),
     ("img", "img"), ("svg", "img"), ("iframe", "document"), ("canvas", "img")]

/-- `HTML_SUMMARIZER_CONFIG['input_type_map'].get(t, 'textbox')`: the
`hidden` key is bound to Python `None` (so the element is dropped), and
an unknown type falls back to `textbox`. -/
def input_type_map_get (t : String) : Option String :=
  if t == "hidden" then none
  else (List.lookup t
    [("text", "textbox"), ("search", "searchbox"), ("email", "textbox"),
     ("password", "textbox"), ("checkbox", "checkbox"), ("radio", "radio"),
     ("submit", "button"), ("reset", "button"), ("file", "textbox"),
     ("image", "button")]).getD "textbox" |> some

/-- `HTMLSummarizer.tag_to_role` (lines 96-112): a truthy explicit
`role` attribute wins; `input` goes through the input-type table with
`type` defaulting to `text`; `select` maps to `combobox`; any other tag
goes through `role_map` with default `generic`. -/
def tag_to_role (nm : String) (attrs : List (String × String)) : Option String :=
  if truthyAttrList attrs "role" then attrListGet attrs "role"
  else
    let t := pyLower nm
    if t == "input" then input_type_map_get (attrListD attrs "type" "text")
    else if t == "select" then some "combobox"
    else some ((role_map_get t).getD "generic")

/-! ## HTMLSummarizer.get_name (lines 114-161) -/

/-- `element.string`: the single NavigableString reached through a chain
of single-child tags, if any (bs4's `.string` property). -/
def stringOf : HNode → Option String
  | .text s => some s
  | .tag _ _ _ [c] => stringOf c
  | .tag _ _ _ _ => none

/-- First attribute whose name lower-cases to `key`
(the fallback scan of lines 123-126). -/
def firstLowerAttr (attrs : List (String × String)) (key : String) : Option String :=
  match attrs with
  | [] => none
  | (k, v) :: rest => if pyLower k == key then some v else firstLowerAttr rest key

/-- Lines 121-126: `element.get('aria-label','').strip()`, with the
case-insensitive attribute-name fallback when that is empty. -/
def aria_label_of (attrs : List (String × String)) : String :=
  let a := pyStrip (attrListD attrs "aria-label" "")
  if a == "" then
    match firstLowerAttr attrs "aria-label" with
    | some v => pyStrip v
    | none => a
  else a

/-- Direct tag children (`element.find_all(recursive=False)`). -/
def tagChildren (cs : List HNode) : List HNode :=
  match cs with
  | [] => []
  | c :: rest =>
    match c with
    | .tag _ _ _ _ => c :: tagChildren rest
    | .text _ => tagChildren rest

/-- `HTMLSummarizer.get_name(element, text)` (lines 114-161), where
`text` is the `element.get_text(strip=True)` value the caller passes:
(1) aria-label; (2) stripped `element.string` when the role is not
`generic`; (3) for a `generic` role with no child tags, `text`;
(4) per-tag rules for `img`, `input`/`textarea`/`select` and `iframe`;
otherwise the empty string. -/
def get_name (e : HNode) (text : String) : String :=
  let attrs := nodeAttrs e
  let aria := aria_label_of attrs
  if aria != "" then aria
  else
    let role := tag_to_role (nodeName e) attrs
    let direct := match stringOf e with
      | some s => pyStrip s
      | none => ""
    if direct != "" && role != some "generic" then direct
    else if role == some "generic" && (tagChildren (nodeChildren e)).isEmpty && text != "" then
      text
    else if nodeName e == "img" then pyStrip (attrListD attrs "alt" "")
    else if nodeName e == "input" || nodeName e == "textarea" || nodeName e == "select" then
      let n1 := pyStrip (attrListD attrs "aria-label" "")
      let n2 := pyStrip (attrListD attrs "value" "")
      let n3 := pyStrip (attrListD attrs "placeholder" "")
      let n4 := pyStrip (attrListD attrs "name" "")
      if n1 != "" then n1 else if n2 != "" then n2 else if n3 != "" then n3 else n4
    else if nodeName e == "iframe" then pyStrip (attrListD attrs "title" "")
    else ""

/-! ## HTMLSummarizer.element_to_json (lines 163-227) -/

/- Structural equality of nodes (bs4 `Tag.__eq__` compares name,
attributes and contents recursively). -/
mutual
def nodeEq : HNode → HNode → Bool
  | .text a, .text b => a == b
  | .tag n1 a1 c1 k1, .tag n2 a2 c2 k2 =>
    n1 == n2 && a1 == a2 && c1 == c2 && forestEq k1 k2
  | _, _ => false
def forestEq : List HNode → List HNode → Bool
  | [], [] => true
  | x :: xs, y :: ys => nodeEq x y && forestEq xs ys
  | _, _ => false
end

/-- Does the attribute list bind `key` at all? -/
def hasAttrKey (attrs : List (String × String)) (key : String) : Bool :=
  match attrs with
  | [] => false
  | (k, _) :: rest => k == key || hasAttrKey rest key

/-- `parent.find(focus=True)`: first descendant tag, in document order,
that carries a `focus` attribute. -/
def findFocusIn : List HNode → Option HNode
  | [] => none
  | .text _ :: rest => findFocusIn rest
  | .tag n a c k :: rest =>
    if hasAttrKey a "focus" then some (.tag n a c k)
    else
      match findFocusIn k with
      | some r => some r
      | none => findFocusIn rest

/-- The attribute allow-list
`HTML_SUMMARIZER_CONFIG['visible_attributes']`. -/
def visible_attributes : List String :=
  ["id", "class", "href", "aria-label", "data-testid", "role", "type",
   "value", "alt", "title", "aria-selected", "aria-checked",
   "aria-expanded", "aria-controls", "aria-describedby", "aria-required",
   "tabindex", "style", "src", "aria-level", "name", "placeholder"]

/-- Lines 178-184: the attribute map restricted to the allow-list, with
the multi-valued `class` joined by spaces.  (bs4 keeps `class` at its
document position inside `element.attrs`; the model appends it after the
other retained attributes, which only permutes the map.) -/
def filteredAttributes (attrs : List (String × String)) (cls : List String) :
    List (String × String) :=
  attrs.filter (fun kv => visible_attributes.contains kv.1) ++
    (if cls.isEmpty then [] else [("class", spaceJoin cls)])

/-- A node of the produced JSON DOM.  Optional dictionary keys of the
Python dict become `Option`/emptiness: `attributes = []` models a dict
without an `attributes` key, `hiddenMark = true` models
`visibility: "hidden"`, and `level`/`focused`/`haspopup` model their
keys' presence. -/
structure SemNode where
  role : String
  name : String
  attributes : List (String × String)
  hiddenMark : Bool
  level : Option Int
  focused : Bool
  haspopup : Option String
  children : List SemNode

/-- Lines 193-202: the heading level, from `aria-level` in the filtered
attributes (integer parse, 1 on failure) or from the tag's second
character (`h1`..`h6`), default 1. -/
def headingLevel (nm : String) (attributes : List (String × String)) : Int :=
  match attrListGet attributes "aria-level" with
  | some v => (pyIntParse v).getD 1
  | none =>
    match nm.toList with
    | 'h' :: d :: _ => if d.isDigit then Int.ofNat (d.toNat - ('0').toNat) else 1
    | _ => 1

/-- Lines 204-208: the focused flag.  `element.find_parent()` is the
head of the ancestor chain (the document node when the element is the
root, matching bs4). -/
def focusedFlag (anc : List HNode) (e : HNode) : Bool :=
  (attrListGet (nodeAttrs e) "focused" == some "true") ||
  ((nodeName e == "input" || nodeName e == "textarea") &&
    (match anc.head? with
     | some par =>
       (match findFocusIn (nodeChildren par) with
        | some f => nodeEq e f
        | none => false)
     | none => false))

/- `HTMLSummarizer.element_to_json` (lines 163-227): `none` models the
Python `None` returns (no tag name, or a role filtered out by the
input-type table).  The recursion into direct children prepends the
element to the ancestor chain, exactly as the live tree does. -/
mutual
def element_to_json (anc : List HNode) : HNode → Option SemNode
  | .text _ => none
  | .tag nm attrs cls cs =>
    let e := HNode.tag nm attrs cls cs
    let text := getTextStripList cs
    match tag_to_role nm attrs with
    | none => none
    | some role =>
      let vis := is_visible anc e
      let attributes := filteredAttributes attrs cls
      let name := get_name e text
      let node : SemNode :=
        { role := role, name := name, attributes := attributes,
          hiddenMark := !vis,
          level := if role == "heading" then some (headingLevel nm attributes) else none,
          focused := focusedFlag anc e,
          haspopup := if truthyAttrList attrs "haspopup" then attrListGet attrs "haspopup" else none,
          children := childrenToJson (e :: anc) cs }
      if text != "" && role == "text" && text != name && !hasAttrKey attributes "aria-label" then
        some { role := "text", name := text, attributes := [], hiddenMark := !vis,
               level := none, focused := false, haspopup := none, children := [] }
      else some node
def childrenToJson (anc : List HNode) : List HNode → List SemNode
  | [] => []
  | c :: rest =>
    match element_to_json anc c with
    | some j => j :: childrenToJson anc rest
    | none => childrenToJson anc rest
end

/-! ## HTMLSummarizer.summarize_html (lines 229-261) -/

/-- A parsed document as BeautifulSoup delivers it: the `[document]`
node whose children are the top-level parsed nodes. -/
structure Soup where
  doc : HNode

/-- `soup.find(nm)`: first tag named `nm` in document order, together
with its ancestor chain (nearest parent first). -/
def findNamed (nm : String) (anc : List HNode) : List HNode → Option (HNode × List HNode)
  | [] => none
  | .text _ :: rest => findNamed nm anc rest
  | .tag n a c k :: rest =>
    if n == nm then some (.tag n a c k, anc)
    else
      match findNamed nm (.tag n a c k :: anc) k with
      | some r => some r
      | none => findNamed nm anc rest

/- `get_text(separator=' ', strip=True)` for the title: the stripped
non-empty descendant strings joined by single spaces. -/
mutual
def textPieces : HNode → List String
  | .text s => if pyStrip s == "" then [] else [pyStrip s]
  | .tag _ _ _ cs => textPiecesList cs
def textPiecesList : List HNode → List String
  | [] => []
  | c :: cs => textPieces c ++ textPiecesList cs
end

/-- The empty `WebArea` node of lines 245, 250 and 257. -/
def emptyWebArea (title : String) : SemNode :=
  { role := "WebArea", name := title, attributes := [], hiddenMark := false,
    level := none, focused := false, haspopup := none, children := [] }

/-- Lines 247-261 applied to a parsed soup: root is `soup.find('body')`
(falling back to the soup itself), the title is the text of
`soup.title`, and the produced root node gets its role forced to
`WebArea` and its name to the title. -/
def summarizeSoup (soup : Soup) : SemNode :=
  let title := match findNamed "title" [soup.doc] (nodeChildren soup.doc) with
    | some (t, _) => spaceJoin (textPieces t)
    | none => ""
  let rootFound := findNamed "body" [soup.doc] (nodeChildren soup.doc)
  match rootFound with
  | some (body, anc) =>
    (match element_to_json anc body with
     | some j => { j with role := "WebArea", name := title }
     | none => emptyWebArea title)
  | none =>
    (match element_to_json [] soup.doc with
     | some j => { j with role := "WebArea", name := title }
     | none => emptyWebArea title)

/-- `HTMLSummarizer.summarize_html` (lines 229-261).  Parsing is the
external library bs4: the primary parser (`self.parser`, default lxml)
and the `html5lib` fallback enter as function parameters; `none` models
a parser exception, in which case the code falls back, and finally
returns an empty `WebArea` (line 245). -/
def summarize_html (parse1 parse2 : String → Option Soup) (html_content : String) : SemNode :=
  match parse1 html_content with
  | some soup => summarizeSoup soup
  | none =>
    match parse2 html_content with
    | some soup => summarizeSoup soup
    | none => emptyWebArea ""

/-! ## PlaywrightManager (app/infrastructure/playwright_manager.py)

The dataclass `ExecutionResult` (lines 35-43).  The float
`execution_time`, which no claim quantifies, is omitted; `result`
carries the opaque return value of read-type commands. -/

structure ExecutionResult where
  success : Bool
  screenshot_path : Option String
  error_message : Option String := none
  page_url : Option String := none
  result : Option String := none
deriving DecidableEq, Repr

/-- Lines 232 and 264: `instruction.replace('await ', '').replace('page.', '')`. -/
def cleanInstruction (s : String) : String :=
  pyReplace (pyReplace s "await " "") "page." ""

/-- `PlaywrightManager._take_screenshot(pfx)` (lines 358-383) while the
page is alive: the file `<screenshot_dir>/<pfx>_<timestamp>.png`.  The
timestamp enters as a parameter; with a live page the capture itself is
taken to succeed, which is the regime every claim about screenshots
speaks of. -/
def screenshotFile (stamp pfx : String) : String :=
  "screenshots/" ++ pfx ++ "_" ++ stamp ++ ".png"

/-- The environment a single `execute_step` call runs against.
`allowed` is `any(pattern.match(...) for pattern in ALLOWED_ACTIONS)`
(lines 235-238) on the string `_is_instruction_allowed` receives;
`runInstruction` is the evaluation of the (cleaned) instruction against
the live page — the navigation special case of lines 272-294, the
`url()` case of lines 296-297 and the `eval` of line 308 — returning
the read value, or the raised exception's message. -/
structure PwEnv where
  allowed : String → Bool
  runInstruction : String → Except String (Option String)
  pageUrl : String
  shotStamp : String

/-- `PlaywrightManager.execute_step(instruction)` (lines 240-356).
`pageAlive` models `self._page`; a dead page raises
`BrowserException("Browser not initialized")` (line 256, the `.error`
branch).  A rejected instruction returns the SecurityException handler's
result of lines 329-338 — with `screenshot_path=None`.  Any other
failure returns the generic handler's result of lines 340-356, after the
"error"-prefixed failure screenshot; a success returns the "step"
screenshot of line 318.  Note that `_is_instruction_allowed` re-cleans
the already cleaned instruction it is handed (line 232). -/
def execute_step_pw (env : PwEnv) (pageAlive : Bool) (instruction : String) :
    Except String ExecutionResult :=
  if !pageAlive then .error "Browser not initialized"
  else
    let clean := cleanInstruction instruction
    if !env.allowed (cleanInstruction clean) then
      .ok { success := false, screenshot_path := none,
            error_message := some ("Instruction not allowed: " ++ clean),
            page_url := some env.pageUrl, result := none }
    else
      match env.runInstruction clean with
      | .ok rv =>
        .ok { success := true, screenshot_path := some (screenshotFile env.shotStamp "step"),
              error_message := none, page_url := some env.pageUrl, result := rv }
      | .error m =>
        .ok { success := false, screenshot_path := some (screenshotFile env.shotStamp "error"),
              error_message := some m, page_url := some env.pageUrl, result := none }

/-! ## OperatorRunnerService._execute_single_step — the instruction tiers
(app/services/operator_runner.py lines 309-360)

The parsed generator response (`instruction_data`), with its two
precision tiers. -/

structure InstructionData where
  high_precision : List String
  low_precision : List String
deriving DecidableEq, Repr

/-- What one tier's `for instruction in ...:` loop does (lines 314-333
for `high_precision`, 336-355 for `low_precision`).  The loop body
executes the instruction; on failure it returns the whole
StepExecutionResult immediately (lines 317-330), and on success it sets
`executed_instruction` and breaks (lines 331-333) — so at most the
first instruction of the list is ever executed. -/
inductive TierOutcome where
  | earlyFail (instr : String) (er : ExecutionResult)
  | succeeded (instr : String) (er : ExecutionResult)
  | exhausted
deriving DecidableEq, Repr

/-- One tier loop, against the execution oracle `ex`
(`self._browser_manager.execute_step`). -/
def tryTier (ex : String → ExecutionResult) : List String → TierOutcome
  | [] => .exhausted
  | instr :: _ =>
    let er := ex instr
    if er.success then .succeeded instr er else .earlyFail instr er

/-- The slice of a StepExecutionResult that the tier loop determines,
plus the trace of instructions actually passed to
`browser_manager.execute_step`. -/
structure StepAttemptOutcome where
  execution_result : ExecutionResult
  playwright_instruction : Option String
  attempted : List String
deriving DecidableEq, Repr

/-- The message of the `StepExecutionException` raised at lines 357-360
when no instruction was executed (`last_error` is never assigned, so it
is always `None` and the f-string prints `Unknown error`), as re-wrapped
by line 365 and stringified by the outer handler at line 409. -/
def noInstructionMessage : String :=
  "Failed to execute instructions: No valid instructions executed. Last error: Unknown error"

/-- Lines 309-360 plus the enclosing handlers: try the high-precision
loop, then (only when it never ran a body) the low-precision loop; if
neither executed anything, the raised exception surfaces as the outer
handler's synthetic failure result (lines 402-412) with
`playwright_instruction = executed_instruction = None`. -/
def execute_single_step_tiers (ex : String → ExecutionResult) (d : InstructionData)
    (page_url : Option String) : StepAttemptOutcome :=
  match tryTier ex d.high_precision with
  | .earlyFail i er => { execution_result := er, playwright_instruction := some i, attempted := [i] }
  | .succeeded i er => { execution_result := er, playwright_instruction := some i, attempted := [i] }
  | .exhausted =>
    match tryTier ex d.low_precision with
    | .earlyFail i er => { execution_result := er, playwright_instruction := some i, attempted := [i] }
    | .succeeded i er => { execution_result := er, playwright_instruction := some i, attempted := [i] }
    | .exhausted =>
      { execution_result :=
          { success := false, screenshot_path := none,
            error_message := some noInstructionMessage, page_url := page_url, result := none },
        playwright_instruction := none, attempted := [] }

/-! ## OperatorRunnerService.run_operator_case
(app/services/operator_runner.py lines 132-260) -/

/-- The dataclass `GherkinStep` produced by the NL translator
(`app/infrastructure/ai_generators.py`). -/
structure GherkinStep where
  gherkin : String
  action : String
  target : String := ""
  value : Option String := none
deriving DecidableEq, Repr

/-- What `self.nl_to_gherkin.generate_steps(...)` did: returned a list,
or raised an exception whose `str` is `msg`. -/
inductive GenOutcome where
  | ok (steps : List GherkinStep)
  | raises (msg : String)
deriving DecidableEq, Repr

/-- The exception alive inside the inner `try` of lines 142-147: the
`ValidationException` of line 145, or whatever the translator raised. -/
inductive GenPhaseExc where
  | validation (msg : String)
  | translator (msg : String)
deriving DecidableEq, Repr

/-- Python `str(e)` of a `GenPhaseExc`. -/
def genExcMessage : GenPhaseExc → String
  | .validation m => m
  | .translator m => m

/-- The `ValidationException` message of line 145. -/
def noStepsMessage : String := "No steps were generated from the natural language input"

/-- The body of the inner `try` (lines 143-145): call the translator;
raise `ValidationException` when the result is empty. -/
def generate_steps_inner (gen : GenOutcome) : Except GenPhaseExc (List GherkinStep) :=
  match gen with
  | .raises m => .error (.translator m)
  | .ok steps => if steps.isEmpty then .error (.validation noStepsMessage) else .ok steps

/-- The exception classes that can escape the outer `try` of
`run_operator_case` and that its handlers at lines 234-245 distinguish. -/
inductive CaseExc where
  | stepGeneration (msg : String)
  | operatorExecution (msg : String)
  | otherExc (msg : String)
deriving DecidableEq, Repr

/-- Lines 142-147 as a whole: the `except Exception` of line 146
catches every exception of the inner body —`ValidationException`
included — and re-raises it as
`StepGenerationException(f"Step generation failed: {str(e)}")`. -/
def generate_steps_phase (gen : GenOutcome) : Except CaseExc (List GherkinStep) :=
  match generate_steps_inner gen with
  | .error e => .error (.stepGeneration ("Step generation failed: " ++ genExcMessage e))
  | .ok s => .ok s

/-- `_ensure_browser_ready` / `_initialize_browser` (lines 90-130):
`init = some m` models `start()` raising an exception with message `m`,
which line 114 wraps into an `OperatorExecutionException`. -/
def ensure_browser (init : Option String) : Except CaseExc Unit :=
  match init with
  | none => .ok ()
  | some m => .error (.operatorExecution ("Failed to initialize browser: " ++ m))

/-- Line 154: `max_retries = 3`. -/
def max_retries : Nat := 3

/-- The navigation retry loop of lines 157-204.  `navOk k` tells whether
attempt `k` reaches `navigation_success = True` (the goto result is
successful and no exception interrupts the attempt); any failure mode —
an unsuccessful goto result (line 169-171) or a raised exception — lands
in the `except` of line 200, which sleeps 2 seconds when further
attempts remain (line 202-203) and continues.  Returns
(success, attempts made, sleep calls made). -/
def navigate_retry (navOk : Nat → Bool) : Nat → Nat → Bool × Nat × Nat
  | _, 0 => (false, 0, 0)
  | attempt, r + 1 =>
    if navOk attempt then (true, 1, 0)
    else
      let slp := if attempt < max_retries - 1 then 1 else 0
      let rest := navigate_retry navOk (attempt + 1) r
      (rest.1, rest.2.1 + 1, rest.2.2 + slp)

/-- The `OperatorExecutionException` message of lines 206-209. -/
def navFailMessage (url : String) : String :=
  "Failed to navigate to " ++ url ++ " after " ++ toString max_retries ++ " attempts"

/-- The step loop of lines 211-232.  `stepER idx` is the
`execution_result` of the StepExecutionResult `_execute_single_step`
returns for index `idx` (that coroutine catches all its exceptions and
always returns a result, so the `except StepExecutionException` arm at
line 229 is unreachable).  Line 215-217 skips a first step that merely
asserts the initial navigation state.  Returns
(success flag, case error message, number of steps executed). -/
def run_steps (stepER : Nat → ExecutionResult) : Nat → List GherkinStep → Bool × Option String × Nat
  | _, [] => (true, none, 0)
  | idx, st :: rest =>
    if idx == 0 && st.action == "navigate" && strContains (pyLower st.gherkin) "am on" then
      run_steps stepER (idx + 1) rest
    else
      let er := stepER idx
      if er.success then
        let r := run_steps stepER (idx + 1) rest
        (r.1, r.2.1, r.2.2 + 1)
      else (false, er.error_message, 1)

/-- The oracles one `run_operator_case` call consumes.
`unexpectedFault = some m` models an arbitrary exception (not one of the
specifically handled classes) raised inside the `try` block after step
generation — the path the generic `except Exception` of line 242
handles. -/
structure CaseEnv where
  gen : GenOutcome
  browserInit : Option String := none
  unexpectedFault : Option String := none
  navOk : Nat → Bool
  stepResult : Nat → ExecutionResult

/-- How the `try` body of lines 139-232 ended. -/
inductive BodyOutcome where
  | normal (success : Bool) (error_message : Option String)
  | raised (e : CaseExc)
deriving DecidableEq, Repr

/-- Observable events of the body: navigation attempts, sleeps between
them, and `_execute_single_step` invocations. -/
structure BodyTrace where
  navigationAttempts : Nat := 0
  sleeps : Nat := 0
  stepsExecuted : Nat := 0
deriving DecidableEq, Repr

/-- The `try` body of `run_operator_case` (lines 139-232): step
generation, browser acquisition, navigation retry, then the step loop. -/
def case_body (env : CaseEnv) (url : String) : BodyOutcome × BodyTrace :=
  match generate_steps_phase env.gen with
  | .error e => (.raised e, {})
  | .ok steps =>
    match ensure_browser env.browserInit with
    | .error e => (.raised e, {})
    | .ok _ =>
      match env.unexpectedFault with
      | some m => (.raised (.otherExc m), {})
      | none =>
        let nav := navigate_retry env.navOk 0 max_retries
        if !nav.1 then
          (.raised (.operatorExecution (navFailMessage url)),
           { navigationAttempts := nav.2.1, sleeps := nav.2.2 })
        else
          let r := run_steps env.stepResult 0 steps
          (.normal r.1 r.2.1,
           { navigationAttempts := nav.2.1, sleeps := nav.2.2, stepsExecuted := r.2.2 })

/-- The `except` clauses of lines 234-245, mapping how the body ended to
the final (success, error_message) pair. -/
def handleCaseExc : BodyOutcome → Bool × Option String
  | .normal s e => (s, e)
  | .raised (.stepGeneration m) => (false, some ("Step generation error: " ++ m))
  | .raised (.operatorExecution m) => (false, some m)
  | .raised (.otherExc m) => (false, some ("Unexpected error: " ++ m))

/-- The observable outcome of one `run_operator_case` call: the
OperatorCaseResult fields the claims quantify plus the event trace
(timestamps, durations and the uuid metadata are omitted). -/
structure CaseRunOutput where
  result_success : Bool
  error_message : Option String
  navigationAttempts : Nat
  sleeps : Nat
  stepsExecuted : Nat
  cleanupCalls : Nat
deriving DecidableEq, Repr

/-- `OperatorRunnerService.run_operator_case` (lines 132-260): run the
`try` body, route its ending through the `except` clauses, and — in the
`finally` of lines 246-247, the sole call site of `_cleanup_browser` in
the service — perform exactly one cleanup invocation on every path,
before the OperatorCaseResult is built and returned (lines 249-260). -/
def run_operator_case (env : CaseEnv) (url : String) : CaseRunOutput :=
  let bodyRun := case_body env url
  let cleanups := 0 + 1
  let finalPair := handleCaseExc bodyRun.1
  { result_success := finalPair.1, error_message := finalPair.2,
    navigationAttempts := bodyRun.2.navigationAttempts,
    sleeps := bodyRun.2.sleeps,
    stepsExecuted := bodyRun.2.stepsExecuted,
    cleanupCalls := cleanups }

/-! ## Concrete fixtures for the orchestrator claims -/

/-- An execution oracle on which every browser command fails with a
real browser-level message. -/
def allFailExec : String → ExecutionResult := fun c =>
  { success := false, screenshot_path := some "screenshots/error_0.png",
    error_message := some ("Element not found: " ++ c),
    page_url := some "https://example.test/" }

/-- The claim C1 scenario: `cmdA` fails, `cmdB` succeeds, `cmdC` fails. -/
def c1exec : String → ExecutionResult := fun c =>
  if c == "cmdB" then
    { success := true, screenshot_path := some "screenshots/step_1.png",
      page_url := some "https://example.test/" }
  else
    { success := false, screenshot_path := some "screenshots/error_1.png",
      error_message := some ("Element not found: " ++ c),
      page_url := some "https://example.test/" }

/-- An environment whose translator returns the empty step list. -/
def translatorEmptyEnv : CaseEnv :=
  { gen := .ok [], navOk := fun _ => true,
    stepResult := fun _ => { success := true, screenshot_path := some "screenshots/step_0.png" } }

/-- An environment whose navigation never succeeds. -/
def navFailEnv : CaseEnv :=
  { gen := .ok [{ gherkin := "When I click the login button", action := "click",
                  target := "login button" }],
    navOk := fun _ => false,
    stepResult := fun _ => { success := true, screenshot_path := some "screenshots/step_0.png" } }

/-! ## Claims C1 and C2 — the instruction tier loop -/

/-- C1 (code bug): with `high_precision = ["cmdA","cmdB"]`,
`low_precision = ["cmdC"]`, `cmdA` failing and `cmdB` succeeding, the
claim says the orchestrator moves on to `cmdB`, records it as executed
and never attempts `cmdC`.  The code instead returns as soon as `cmdA`
fails: the step result records `cmdA` (with `cmdA`'s failure), and
neither `cmdB` nor `cmdC` is ever attempted — `attempted = ["cmdA"]`.
This evaluation exhibits that behaviour. -/
theorem claim_C1_code_eval :
    execute_single_step_tiers c1exec ⟨["cmdA", "cmdB"], ["cmdC"]⟩ none =
      { execution_result :=
          { success := false, screenshot_path := some "screenshots/error_1.png",
            error_message := some "Element not found: cmdA",
            page_url := some "https://example.test/", result := none },
        playwright_instruction := some "cmdA",
        attempted := ["cmdA"] } := rfl

/-- C2: when every command in both tiers fails, the StepExecutionResult
carries the ExecutionResult of the last command actually attempted —
verbatim, so with its real failure message — and the
`playwright_instruction` field names that command, so the outcome is not
the synthetic "no instruction" failure (whose `playwright_instruction`
is `None`). -/
theorem claim_C2_last_attempted (ex : String → ExecutionResult) (hp lp : List String)
    (purl : Option String) (hne : hp ++ lp ≠ [])
    (hfail : ∀ c ∈ hp ++ lp, (ex c).success = false) :
    ∃ last,
      (execute_single_step_tiers ex ⟨hp, lp⟩ purl).attempted.getLast? = some last ∧
      (execute_single_step_tiers ex ⟨hp, lp⟩ purl).execution_result = ex last ∧
      (execute_single_step_tiers ex ⟨hp, lp⟩ purl).playwright_instruction = some last ∧
      last ∈ hp ++ lp := by
  cases hp with
  | cons a as =>
    have ha : (ex a).success = false := hfail a (by simp)
    refine ⟨a, ?_, ?_, ?_, by simp⟩ <;>
      simp [execute_single_step_tiers, tryTier, ha]
  | nil =>
    cases lp with
    | nil => exact absurd rfl hne
    | cons b bs =>
      have hb : (ex b).success = false := hfail b (by simp)
      refine ⟨b, ?_, ?_, ?_, by simp⟩ <;>
        simp [execute_single_step_tiers, tryTier, hb]

/-- C2 witness: the theorem applied to the concrete all-failing oracle
and the `["cmdA","cmdB"]` / `["cmdC"]` tier lists. -/
theorem claim_C2_witness :
    ∃ last,
      (execute_single_step_tiers allFailExec ⟨["cmdA", "cmdB"], ["cmdC"]⟩ none).attempted.getLast?
          = some last ∧
      (execute_single_step_tiers allFailExec ⟨["cmdA", "cmdB"], ["cmdC"]⟩ none).execution_result
          = allFailExec last ∧
      (execute_single_step_tiers allFailExec ⟨["cmdA", "cmdB"], ["cmdC"]⟩ none).playwright_instruction
          = some last ∧
      last ∈ ["cmdA", "cmdB"] ++ ["cmdC"] :=
  claim_C2_last_attempted allFailExec ["cmdA", "cmdB"] ["cmdC"] none (by decide)
    (fun _ _ => rfl)

/-! ## Claim C3 — empty translator output -/

/-- C3 (code bug): the claim says an empty translator result is reported
as a validation failure, distinct from the generation failure raised for
a translator exception.  The code does raise `ValidationException`
(line 145), but the enclosing `except Exception` of line 146 immediately
re-wraps it into `StepGenerationException`, so the empty result reaches
the case handlers as exactly the same `stepGeneration` class as a
translator exception, and the case reports "Step generation error: ...".
The parts of the claim that do hold — `success=false`, no navigation
attempt, no step attempt — are evaluated here as well. -/
theorem claim_C3_code_eval :
    generate_steps_inner (.ok []) = .error (.validation noStepsMessage) ∧
    generate_steps_phase (.ok []) =
      .error (.stepGeneration ("Step generation failed: " ++ noStepsMessage)) ∧
    generate_steps_phase (.raises "translator exception") =
      .error (.stepGeneration "Step generation failed: translator exception") ∧
    (run_operator_case translatorEmptyEnv "https://example.test/").result_success = false ∧
    (run_operator_case translatorEmptyEnv "https://example.test/").error_message =
      some "Step generation error: Step generation failed: No steps were generated from the natural language input" ∧
    (run_operator_case translatorEmptyEnv "https://example.test/").navigationAttempts = 0 ∧
    (run_operator_case translatorEmptyEnv "https://example.test/").stepsExecuted = 0 :=
  ⟨rfl, rfl, rfl, rfl, rfl, rfl, rfl⟩

/-! ## Claim C4 — navigation retry exhaustion -/

/-- With an oracle on which every attempt fails,
`for attempt in range(3)` makes exactly 3 attempts and sleeps between
consecutive attempts (after attempts 0 and 1, not after the last). -/
theorem navigate_retry_all_fail (navOk : Nat → Bool) (h : ∀ k, navOk k = false) :
    navigate_retry navOk 0 3 = (false, 3, 2) := by
  simp [navigate_retry, h 0, h 1, h 2, max_retries]

/-- C4: when navigation never succeeds (and the run reaches the
navigation stage: steps were generated and the browser started),
`run_operator_case` makes exactly 3 navigation attempts with a delay
between consecutive attempts, never executes a step, and fails with the
message naming the URL and the attempt count. -/
theorem claim_C4_navigation_retry (env : CaseEnv) (url : String) (steps : List GherkinStep)
    (hgen : env.gen = .ok steps) (hsteps : steps ≠ [])
    (hinit : env.browserInit = none) (hfault : env.unexpectedFault = none)
    (hnav : ∀ k, env.navOk k = false) :
    (run_operator_case env url).navigationAttempts = 3 ∧
    (run_operator_case env url).sleeps = 2 ∧
    (run_operator_case env url).stepsExecuted = 0 ∧
    (run_operator_case env url).result_success = false ∧
    (run_operator_case env url).error_message = some (navFailMessage url) := by
  have hn := navigate_retry_all_fail env.navOk hnav
  have hse : steps.isEmpty = false := by
    cases steps with
    | nil => exact absurd rfl hsteps
    | cons s ss => rfl
  have hg : generate_steps_phase env.gen = .ok steps := by
    simp [generate_steps_phase, generate_steps_inner, hgen, hse]
  refine ⟨?_, ?_, ?_, ?_, ?_⟩ <;>
    simp [run_operator_case, case_body, hg, hinit, hfault, ensure_browser,
      max_retries, hn, handleCaseExc]

/-- C4 witness: the theorem applied to the concrete never-navigating
environment; the message names the URL and the count 3. -/
theorem claim_C4_witness :
    (run_operator_case navFailEnv "https://example.test/login").navigationAttempts = 3 ∧
    (run_operator_case navFailEnv "https://example.test/login").sleeps = 2 ∧
    (run_operator_case navFailEnv "https://example.test/login").stepsExecuted = 0 ∧
    (run_operator_case navFailEnv "https://example.test/login").result_success = false ∧
    (run_operator_case navFailEnv "https://example.test/login").error_message =
      some "Failed to navigate to https://example.test/login after 3 attempts" :=
  claim_C4_navigation_retry navFailEnv "https://example.test/login"
    [{ gherkin := "When I click the login button", action := "click", target := "login button" }]
    rfl (List.cons_ne_nil _ _) rfl rfl (fun _ => rfl)

/-! ## Claim C5 — the cleanup invariant -/

/-- C5: whatever the oracles do — success, step failure, navigation
exhaustion, translator failure or an unexpected exception — one
`run_operator_case` call performs exactly one `_cleanup_browser`
invocation (the `finally` block, the service's sole call site of the
cleanup routine), before the OperatorCaseResult is assembled and
returned. -/
theorem claim_C5_cleanup_once (env : CaseEnv) (url : String) :
    (run_operator_case env url).cleanupCalls = 1 := rfl

/-! ## Claim C6 — screenshots on every attempt -/

/-- A sandbox whose security gate rejects everything (the gate enters
the model as an oracle; instantiating it at `false` realizes any
instruction that matches no ALLOWED_ACTIONS pattern). -/
def secGateEnv : PwEnv :=
  { allowed := fun _ => false, runInstruction := fun _ => .ok none,
    pageUrl := "https://example.test/", shotStamp := "20250101_000000_000000" }

/-- A sandbox that admits and successfully executes its instruction. -/
def sandboxOkEnv : PwEnv :=
  { allowed := fun _ => true, runInstruction := fun _ => .ok none,
    pageUrl := "https://example.test/", shotStamp := "20250101_000000_000001" }

/-- A sandbox that admits its instruction but whose evaluation fails. -/
def sandboxFailEnv : PwEnv :=
  { allowed := fun _ => true, runInstruction := fun _ => .error "Element not found",
    pageUrl := "https://example.test/", shotStamp := "20250101_000000_000002" }

/-- C6 counterexample: an attempt made while the session is alive but
rejected by the security allow-list gate yields `success=false` with
`screenshot_path = None` — the SecurityException handler of lines
329-338 explicitly returns a null screenshot, so the claim's "includes
attempts rejected by the security allow-list gate" fails. -/
theorem claim_C6_counterexample :
    execute_step_pw secGateEnv true "evaluate('2+2')" =
      .ok { success := false, screenshot_path := none,
            error_message := some "Instruction not allowed: evaluate('2+2')",
            page_url := some "https://example.test/", result := none } := rfl

/-- C6 (amended): for every command attempt made while the session is
alive, the ExecutionResult carries a non-null screenshot_path — the
"step"-prefixed screenshot on success and the distinct "error"-prefixed
failure screenshot on failure — **except** attempts rejected by the
security allow-list gate, which return `success=false` with
`screenshot_path = None`. -/
theorem claim_C6_sandbox_amended :
    (∀ (env : PwEnv) (instr : String),
        env.allowed (cleanInstruction (cleanInstruction instr)) = false →
        execute_step_pw env true instr =
          .ok { success := false, screenshot_path := none,
                error_message := some ("Instruction not allowed: " ++ cleanInstruction instr),
                page_url := some env.pageUrl, result := none }) ∧
    (∀ (env : PwEnv) (instr : String) (rv : Option String),
        env.allowed (cleanInstruction (cleanInstruction instr)) = true →
        env.runInstruction (cleanInstruction instr) = .ok rv →
        execute_step_pw env true instr =
          .ok { success := true,
                screenshot_path := some (screenshotFile env.shotStamp "step"),
                error_message := none, page_url := some env.pageUrl, result := rv }) ∧
    (∀ (env : PwEnv) (instr : String) (m : String),
        env.allowed (cleanInstruction (cleanInstruction instr)) = true →
        env.runInstruction (cleanInstruction instr) = .error m →
        execute_step_pw env true instr =
          .ok { success := false,
                screenshot_path := some (screenshotFile env.shotStamp "error"),
                error_message := some m, page_url := some env.pageUrl, result := none }) := by
  refine ⟨?_, ?_, ?_⟩
  · intro env instr h
    simp [execute_step_pw, h]
  · intro env instr rv h hr
    simp [execute_step_pw, h, hr]
  · intro env instr m h hr
    simp [execute_step_pw, h, hr]

/-- C6 witness: all three arms of the amended statement at concrete
sandboxes and instructions. -/
theorem claim_C6_witness :
    execute_step_pw secGateEnv true "screenshot()" =
      .ok { success := false, screenshot_path := none,
            error_message := some "Instruction not allowed: screenshot()",
            page_url := some "https://example.test/", result := none } ∧
    execute_step_pw sandboxOkEnv true "await page.click('#login-button')" =
      .ok { success := true,
            screenshot_path := some "screenshots/step_20250101_000000_000001.png",
            error_message := none, page_url := some "https://example.test/", result := none } ∧
    execute_step_pw sandboxFailEnv true "click('#missing')" =
      .ok { success := false,
            screenshot_path := some "screenshots/error_20250101_000000_000002.png",
            error_message := some "Element not found",
            page_url := some "https://example.test/", result := none } :=
  ⟨claim_C6_sandbox_amended.1 secGateEnv "screenshot()" rfl,
   claim_C6_sandbox_amended.2.1 sandboxOkEnv "await page.click('#login-button')" none rfl rfl,
   claim_C6_sandbox_amended.2.2 sandboxFailEnv "click('#missing')" "Element not found" rfl rfl⟩

/-! ## Visibility helper lemmas (claims C7 and C10) -/

/-- If some ancestor `p` — reached before any document node — hides by
style, by the `hidden`/`aria-hidden` attributes, or by the `mobile-nav`
class, the parent walk reports the chain as hiding. -/
theorem parentChainHides_append (l1 : List HNode) (p : HNode) (l2 : List HNode)
    (hdoc : ∀ q ∈ l1, (nodeName q == "[document]") = false)
    (hp : (nodeName p == "[document]") = false)
    (hOr : styleHides (attrOfD p "style" "") = true ∨
      (truthyAttrList (nodeAttrs p) "hidden" || ariaHiddenTrue (nodeAttrs p)) = true ∨
      (nodeClasses p).contains "mobile-nav" = true) :
    parentChainHides (l1 ++ p :: l2) = true := by
  induction l1 with
  | nil =>
    rcases hOr with h | h | h
    · simp [parentChainHides, hp, h]
    · cases hs : styleHides (attrOfD p "style" "") <;>
        simp [parentChainHides, hp, hs, h]
    · have hmem : "mobile-nav" ∈ nodeClasses p := by simpa using h
      cases hs : styleHides (attrOfD p "style" "") <;>
        cases hh : (truthyAttrList (nodeAttrs p) "hidden" || ariaHiddenTrue (nodeAttrs p)) <;>
          simp [parentChainHides, hp, hs, hh, hmem]
  | cons q qs ih =>
    have hq := hdoc q (by simp)
    have ih2 := ih (fun r hr => hdoc r (by simp [hr]))
    cases h1 : styleHides (attrOfD q "style" "")
    · cases h2 : (truthyAttrList (nodeAttrs q) "hidden" || ariaHiddenTrue (nodeAttrs q))
      · cases h3 : (nodeClasses q).contains "mobile-nav"
        · have h3m : "mobile-nav" ∉ nodeClasses q := by simpa using h3
          simpa [parentChainHides, hq, h1, h2, h3m] using ih2
        · have h3m : "mobile-nav" ∈ nodeClasses q := by simpa using h3
          simp [parentChainHides, hq, h1, h2, h3m]
      · simp [parentChainHides, hq, h1, h2]
    · simp [parentChainHides, hq, h1]

/-- A hiding ancestor chain makes any element invisible: the element's
own early checks can only return `false` as well, and the chain check
precedes every visibility-granting branch. -/
theorem is_visible_of_chainHides (anc : List HNode) (e : HNode)
    (h : parentChainHides anc = true) : is_visible anc e = false := by
  cases e with
  | text s => rfl
  | tag nm attrs cls cs =>
    cases h1 : styleHides (attrListD attrs "style" "")
    · cases h2 : (truthyAttrList attrs "hidden" || ariaHiddenTrue attrs)
      · simp [is_visible, h1, h2, h]
      · simp [is_visible, h1, h2]
    · simp [is_visible, h1]

/-- A visible member of a child list makes the child scan succeed. -/
theorem anyChildVisible_of_mem (anc : List HNode) (c : HNode) (cs : List HNode)
    (hm : c ∈ cs) (hv : is_visible anc c = true) :
    anyChildVisible anc cs = true := by
  induction cs with
  | nil => cases hm
  | cons d ds ih =>
    rcases List.mem_cons.mp hm with h | h
    · subst h; simp [anyChildVisible, hv]
    · simp [anyChildVisible, ih h]

/-- A tag node among the children makes `find_all(recursive=False)`
non-empty. -/
theorem hasTagChild_of_mem (cs : List HNode) (nm : String)
    (a : List (String × String)) (cl : List String) (k : List HNode)
    (hm : HNode.tag nm a cl k ∈ cs) : hasTagChild cs = true := by
  induction cs with
  | nil => cases hm
  | cons d ds ih =>
    rcases List.mem_cons.mp hm with h | h
    · rw [← h]; rfl
    · cases d with
      | tag n2 a2 c2 k2 => rfl
      | text s => simpa [hasTagChild] using ih h

/-! ## Claim C10 — the mobile-nav hiding rule -/

/-- C10: any element below an ancestor whose `class` token list contains
`mobile-nav` (the ancestor being a real tag, not the document node, and
reached before any document node) is reported invisible by `is_visible`,
regardless of the element's own style, attributes, text or children —
the extra hiding rule of html_summarizer.py lines 59-62. -/
theorem claim_C10_mobile_nav (e p : HNode) (l1 l2 : List HNode)
    (hdoc : ∀ q ∈ l1, (nodeName q == "[document]") = false)
    (hp : (nodeName p == "[document]") = false)
    (hm : (nodeClasses p).contains "mobile-nav" = true) :
    is_visible (l1 ++ p :: l2) e = false :=
  is_visible_of_chainHides _ e
    (parentChainHides_append l1 p l2 hdoc hp (Or.inr (Or.inr hm)))

/-- A container carrying the `mobile-nav` class. -/
def mobileNavParent : HNode := .tag "div" [("id", "menu-wrap")] ["mobile-nav", "open"] []

/-- A perfectly visible-looking button. -/
def menuButton : HNode := .tag "button" [("id", "menu-button")] [] [.text "Menu"]

/-- C10 witness: the visible-looking button under the `mobile-nav`
container is reported invisible. -/
theorem claim_C10_witness : is_visible [mobileNavParent] menuButton = false :=
  claim_C10_mobile_nav menuButton mobileNavParent [] []
    (fun q hq => absurd hq (List.not_mem_nil q)) rfl rfl

/-! ## Claim C7 — hiding styles and the bubble-up rule -/

/-- A span with visible text, as in the claim's markup. -/
def visibleSpan : HNode := .tag "span" [] [] [.text "visible text"]

/-- The claim's exact markup `<div style="display:none">...` — note the
missing space after the colon. -/
def displayNoneNoSpaceDiv : HNode := .tag "div" [("style", "display:none")] [] [visibleSpan]

/-- The same wrapper with the spelling the code's substring test
matches. -/
def displayNoneSpaceDiv : HNode := .tag "div" [("style", "display: none")] [] [visibleSpan]

/-- An image child (always visible once the ancestors allow it). -/
def logoImg : HNode := .tag "img" [("src", "logo.png")] [] []

/-- A generic wrapper with no own signal but one visible child. -/
def wrapperDiv : HNode := .tag "div" [] [] [logoImg]

/-- C7 counterexample: on the claim's own markup
`<div style="display:none"><span>visible text</span></div>` the element
is reported **visible** — lines 42/53 match the substring
`"display: none"` (with a space), which `"display:none"` does not
contain, so neither the div's own check nor the span's ancestor walk
fires. -/
theorem claim_C7_counterexample : is_visible [] displayNoneNoSpaceDiv = true := rfl

/-- C7 (amended): with the hiding declaration spelled exactly as the
code matches it — the substring `"display: none"`, one space after the
colon — an element is invisible when its own style carries it and when
any ancestor's style (reached before the document node) carries it; and
the bubble-up rule holds: a non-interactive, non-special element whose
own checks pass and that has at least one visible child is reported
visible. -/
theorem claim_C7_amended :
    (∀ (anc : List HNode) (nm : String) (attrs : List (String × String))
        (cls : List String) (cs : List HNode),
        strContains (attrListD attrs "style" "") "display: none" = true →
        is_visible anc (.tag nm attrs cls cs) = false) ∧
    (∀ (e p : HNode) (l1 l2 : List HNode),
        (∀ q ∈ l1, (nodeName q == "[document]") = false) →
        (nodeName p == "[document]") = false →
        strContains (attrOfD p "style" "") "display: none" = true →
        is_visible (l1 ++ p :: l2) e = false) ∧
    (∀ (anc : List HNode) (nm : String) (attrs : List (String × String))
        (cls : List String) (cs : List HNode) (c : HNode),
        styleHides (attrListD attrs "style" "") = false →
        (truthyAttrList attrs "hidden" || ariaHiddenTrue attrs) = false →
        parentChainHides anc = false →
        isInteractiveTag nm attrs = false →
        isSpecialTag nm = false →
        c ∈ cs →
        is_visible (HNode.tag nm attrs cls cs :: anc) c = true →
        is_visible anc (.tag nm attrs cls cs) = true) := by
  refine ⟨?_, ?_, ?_⟩
  · intro anc nm attrs cls cs h
    have hs : styleHides (attrListD attrs "style" "") = true := by
      simp [styleHides, h]
    simp [is_visible, hs]
  · intro e p l1 l2 hdoc hp h
    exact is_visible_of_chainHides _ e
      (parentChainHides_append l1 p l2 hdoc hp (Or.inl (by simp [styleHides, h])))
  · intro anc nm attrs cls cs c h1 h2 h3 h4 h5 hm hv
    have hct : hasTagChild cs = true := by
      cases c with
      | text s => simp [is_visible] at hv
      | tag n2 a2 c2 k2 => exact hasTagChild_of_mem cs n2 a2 c2 k2 hm
    have hany : anyChildVisible (HNode.tag nm attrs cls cs :: anc) cs = true :=
      anyChildVisible_of_mem _ c cs hm hv
    simp [is_visible, h1, h2, h3, h4, h5, hct, hany]

/-- C7 witness: all three arms on concrete markup — the wrapper with the
space spelling is invisible, its span child is invisible through the
ancestor walk, and the generic wrapper with a visible image child is
visible. -/
theorem claim_C7_witness :
    is_visible [] displayNoneSpaceDiv = false ∧
    is_visible [displayNoneSpaceDiv] visibleSpan = false ∧
    is_visible [] wrapperDiv = true :=
  ⟨claim_C7_amended.1 [] "div" [("style", "display: none")] [] [visibleSpan] rfl,
   claim_C7_amended.2.1 visibleSpan displayNoneSpaceDiv [] []
     (fun q hq => absurd hq (List.not_mem_nil q)) rfl rfl,
   claim_C7_amended.2.2 [] "div" [] [] [logoImg] logoImg rfl rfl rfl rfl rfl
     (List.mem_singleton.mpr rfl) rfl⟩

/-! ## Claim C8 — name extraction precedence -/

/-- Stripping the empty string is the identity. -/
theorem pyStrip_empty : pyStrip "" = "" := rfl

/-- If the computed aria-label value is empty, so is the stripped value
of the exact `aria-label` attribute (the first thing lines 121-126
consult). -/
theorem aria_first_empty (attrs : List (String × String))
    (h : aria_label_of attrs = "") :
    pyStrip (attrListD attrs "aria-label" "") = "" := by
  by_cases hx : pyStrip (attrListD attrs "aria-label" "") = ""
  · exact hx
  · have hb : (pyStrip (attrListD attrs "aria-label" "") == "") = false := by
      simpa using hx
    simp [aria_label_of, hb] at h
    exact absurd h hx

/-- C8: the strict name precedence of `get_name`.  (1) An element
carrying `aria-label` with non-blank value `a` is named `a` (stripped),
whatever its text; (2) an element whose only content is direct own text
`s`, with empty aria-label and a non-generic role, is named the stripped
`s`; (3) a childless `<input>` with no aria-label, `value` or `name`
attribute but with a non-blank `placeholder` is named the placeholder. -/
theorem claim_C8_name_precedence :
    (∀ (nm : String) (attrs : List (String × String)) (cls : List String)
        (cs : List HNode) (t a : String),
        attrListGet attrs "aria-label" = some a →
        pyStrip a ≠ "" →
        get_name (.tag nm attrs cls cs) t = pyStrip a) ∧
    (∀ (nm : String) (attrs : List (String × String)) (cls : List String) (s t : String),
        aria_label_of attrs = "" →
        pyStrip s ≠ "" →
        tag_to_role nm attrs ≠ some "generic" →
        get_name (.tag nm attrs cls [.text s]) t = pyStrip s) ∧
    (∀ (attrs : List (String × String)) (cls : List String) (p : String),
        aria_label_of attrs = "" →
        attrListGet attrs "value" = none →
        attrListGet attrs "name" = none →
        attrListGet attrs "placeholder" = some p →
        pyStrip p ≠ "" →
        get_name (.tag "input" attrs cls []) "" = pyStrip p) := by
  refine ⟨?_, ?_, ?_⟩
  · intro nm attrs cls cs t a h hne
    have hd : attrListD attrs "aria-label" "" = a := by simp [attrListD, h]
    simp [get_name, aria_label_of, nodeAttrs, hd, hne]
  · intro nm attrs cls s t h1 h2 h3
    simp [get_name, h1, stringOf, nodeName, nodeAttrs, nodeChildren, h2, h3]
  · intro attrs cls p h1 h2 h3 h4 h5
    have h1' := aria_first_empty attrs h1
    simp only [attrListD] at h1'
    simp [get_name, h1, stringOf, nodeName, nodeAttrs, nodeChildren, tagChildren,
      attrListD, h2, h3, h4, h1', h5, pyStrip_empty]

/-- C8 witness: the three precedence rules at concrete elements —
aria-label beats inner text, own text names a non-generic element, and
an input falls back to its placeholder. -/
theorem claim_C8_witness :
    get_name (.tag "button" [("aria-label", "A")] [] [.text "B"]) "B" = "A" ∧
    get_name (.tag "button" [] [] [.text "Submit"]) "Submit" = "Submit" ∧
    get_name (.tag "input" [("placeholder", "P")] [] []) "" = "P" :=
  ⟨claim_C8_name_precedence.1 "button" [("aria-label", "A")] [] [.text "B"] "B" "A"
     rfl (by decide),
   claim_C8_name_precedence.2.1 "button" [] [] "Submit" "Submit" rfl (by decide) (by decide),
   claim_C8_name_precedence.2.2 [("placeholder", "P")] [] "P" rfl rfl rfl rfl (by decide)⟩

/-! ## Claim C9 — determinism of the Snapshot Builder -/

/-- C9: `summarize_html` is deterministic — the builder threads no
mutable state (its configuration tables are read-only), so in the
embedding it is a pure function of the parsers and the markup string,
and two calls with the same string produce identical SemanticNode
trees. -/
theorem claim_C9_deterministic (parse1 parse2 : String → Option Soup) (markup : String) :
    summarize_html parse1 parse2 markup = summarize_html parse1 parse2 markup := rfl

end MVPOperator
